import Mathlib

/-
Shallow embedding of the URBANIX chat-completion fallback proxy.

Embedded code:
- server/chatServer.ts : the POST /api/chat handler (candidate loop over
  models with fallback), the prompt validation guard, and the
  GET /api/health handler.
- src/components/Chatbot.tsx (Chatbot.generateBotResponse) : the
  client-side requester loop over preferredModels.

The inference backend (Ollama) and the chat server, as seen from the
client, are modelled as function parameters mapping a model name to the
reply observed for the single request made for that model; each model is
contacted at most once per request, so a function captures one request
exactly.  Every loop also returns the trace of model names that were
actually sent to the backend, which makes claims about which candidates
were attempted expressible.
-/

/-- Executable translation of the JavaScript String.prototype.trim call:
strip leading and trailing whitespace. -/
def jsTrim (s : String) : String :=
  ⟨(((s.data.dropWhile Char.isWhitespace).reverse).dropWhile
      Char.isWhitespace).reverse⟩

/-- Reply of the Ollama inference backend to one generate call:
a non-2xx HTTP reply with its body text, a 2xx reply with the optional
`response` field of the parsed JSON body, or a thrown network exception. -/
inductive BackendReply where
  | httpError (status : Nat) (errText : String)
  | json (response : Option String)
  | exn (msg : String)
deriving DecidableEq

/-- A single apostrophe character, used inside the annotation strings. -/
def squote : String := "\x27"

/-- Message built in chatServer.ts for a non-ok backend reply:
the template `Ollama error: status - errText`. -/
def ollamaErrorMsg (status : Nat) (errText : String) : String :=
  "Ollama error: " ++ toString status ++ " - " ++ errText

/-- chatServer.ts : `data.response?.trim() || ""` — the extracted,
trimmed response text, empty when the field is absent. -/
def extractResponseText : Option String → String
  | some t => jsTrim t
  | none => ""

/-- chatServer.ts : the error recorded for a blank extracted text. -/
def emptyResponseMsg : String := "Empty response from model"

/-- Outcome of one candidate attempt: the recorded error message on
failure, the usable text on success. -/
inductive Attempt where
  | fail (msg : String)
  | succeed (text : String)
deriving DecidableEq

/-- One candidate attempt of the server loop body, as an explicit result.
Mirrors the body of the for-loop in chatServer.ts up to the annotation
step: a non-ok reply records the Ollama error message, a blank trimmed
text records the empty-response message, a thrown exception records its
own message, anything else succeeds with the trimmed text. -/
def attemptModel (backend : String → BackendReply) (modelName : String) :
    Attempt :=
  match backend modelName with
  | .httpError status errText => .fail (ollamaErrorMsg status errText)
  | .json r =>
      if extractResponseText r = "" then .fail emptyResponseMsg
      else .succeed (extractResponseText r)
  | .exn msg => .fail msg

/-- chatServer.ts : the note appended when a fallback model served. -/
def fallbackNote (model modelName : String) : String :=
  "\n\n_(Used fallback model " ++ squote ++ modelName ++ squote ++ " - "
    ++ model ++ " not available)_"

/-- chatServer.ts : `if (modelName !== model && modelName !== "mistral")`
append the fallback note, else return the text unchanged. -/
def finalResponseFor (model modelName responseText : String) : String :=
  if modelName ≠ model ∧ modelName ≠ "mistral" then
    responseText ++ fallbackNote model modelName
  else responseText

/-- The data carried by a successful pass through the loop: which model
served, its trimmed text, and the final (possibly annotated) response. -/
structure Served where
  servingModel : String
  text : String
  finalResponse : String
deriving DecidableEq

/-- Result of the whole candidate loop: either some model served, or the
list was exhausted and the last recorded error is reported. -/
inductive LoopResult where
  | served (s : Served)
  | exhausted (lastError : Option String)
deriving DecidableEq

/-- The candidate loop of chatServer.ts.  Walks the model list carrying
`lastError`; a failed attempt records its error and moves on, the first
successful attempt stops the loop.  Also returns the list of models that
were actually attempted, in order. -/
def runModels (model : String) (backend : String → BackendReply) :
    List String → Option String → List String × LoopResult
  | [], lastError => ([], LoopResult.exhausted lastError)
  | modelName :: rest, lastError =>
    match attemptModel backend modelName with
    | .fail e =>
        let next := runModels model backend rest (some e)
        (modelName :: next.fst, next.snd)
    | .succeed responseText =>
        ([modelName],
         LoopResult.served ⟨modelName, responseText,
                            finalResponseFor model modelName responseText⟩)

/-- chatServer.ts : `[model, "orca-mini", "mistral"].filter((m, idx, arr)
=> arr.indexOf(m) === idx)` — the duplicate-removing filter, stated for
an arbitrary list.  A list element survives exactly when the index of its
first occurrence equals its own index. -/
def dedupFirst (arr : List String) : List String :=
  (arr.enum.filter (fun p => arr.indexOf p.2 == p.1)).map Prod.snd

/-- chatServer.ts : the effective candidate list for a request. -/
def modelsToTry (model : String) : List String :=
  dedupFirst [model, "orca-mini", "mistral"]

/-- The request body of POST /api/chat: both fields may be absent. -/
structure ChatRequest where
  prompt : Option String
  model : Option String
deriving DecidableEq

/-- The three reply shapes of the /api/chat handler. -/
inductive ChatResponse where
  | ok (response : String)
  | badRequest (error : String)
  | serverError (error : String) (details : String)
deriving DecidableEq

/-- HTTP status code attached to each reply shape in chatServer.ts. -/
def statusOf : ChatResponse → Nat
  | .ok _ => 200
  | .badRequest _ => 400
  | .serverError _ _ => 500

/-- chatServer.ts : `if (!prompt)` — a missing prompt or the empty
string (the only falsy string) fails validation. -/
def promptMissing : Option String → Bool
  | none => true
  | some p => p == ""

/-- chatServer.ts : the message of the defensive throw after the loop. -/
def allFailedMsg : String := "All models failed - no available models in Ollama"

/-- The HTTP reply derived from the loop result: a success returns the
final response as JSON; exhaustion rethrows the last error (or the
defensive message when none was recorded), which the outer catch turns
into the 500 reply of chatServer.ts. -/
def chatOutcome : LoopResult → ChatResponse
  | .served s => ChatResponse.ok s.finalResponse
  | .exhausted lastError =>
      ChatResponse.serverError "Failed to communicate with Ollama"
        (lastError.getD allFailedMsg)

/-- The whole POST /api/chat handler: validation guard, candidate list
construction with the default model `tinyllama`, the loop, and the outer
catch turning a throw into a 500 reply.  The first component is the trace
of models actually sent to the backend. -/
def handleChat (backend : String → BackendReply) (req : ChatRequest) :
    List String × ChatResponse :=
  if promptMissing req.prompt then
    ([], ChatResponse.badRequest "Prompt is required")
  else
    ((runModels (req.model.getD "tinyllama") backend
        (modelsToTry (req.model.getD "tinyllama")) none).fst,
     chatOutcome ((runModels (req.model.getD "tinyllama") backend
        (modelsToTry (req.model.getD "tinyllama")) none).snd))

/-- Spec data model: usedFallback is true exactly when the serving model
differs from the primary requested model. -/
def usedFallback (model : String) (s : Served) : Bool :=
  s.servingModel != model

/-- The body returned by the GET /api/health handler. -/
structure HealthBody where
  status : String
deriving DecidableEq

/-- chatServer.ts : `app.get("/api/health", ...)` — a pure constant;
the empty list records that no backend call is made. -/
def handleHealth : List String × HealthBody :=
  ([], ⟨"Server is running"⟩)

/-- A reply of the chat server as observed by the client loop:
a non-ok HTTP reply with the optional `details` field of its JSON body,
an ok reply with the optional `error` and `response` fields, or a thrown
network exception. -/
inductive ServerReply where
  | notOk (status : Nat) (details : Option String)
  | okBody (error : Option String) (response : Option String)
  | netExn (msg : String)
deriving DecidableEq

/-- Chatbot.tsx : message for a non-ok server reply,
`body?.details || "Server error: status"`. -/
def serverErrorMsg (status : Nat) (details : Option String) : String :=
  match details with
  | some d => if d = "" then "Server error: " ++ toString status else d
  | none => "Server error: " ++ toString status

/-- JavaScript truthiness of an optional string field. -/
def truthy : Option String → Bool
  | some s => s != ""
  | none => false

/-- Chatbot.tsx : the error recorded for a missing or blank response. -/
def emptyAiMsg : String := "Empty response from AI"

/-- One iteration body of the client loop in Chatbot.generateBotResponse,
up to the annotation step: the recorded error on failure, the response
text on success. -/
def clientAttempt (server : String → ServerReply) (modelName : String) :
    Attempt :=
  match server modelName with
  | .notOk status details => .fail (serverErrorMsg status details)
  | .okBody err resp =>
      if truthy err then .fail (err.getD "")
      else if truthy resp then .succeed (resp.getD "")
      else .fail emptyAiMsg
  | .netExn msg => .fail msg

/-- Chatbot.tsx : the fixed client-side preference list. -/
def preferredModels : List String := ["mistral", "orca-mini", "neural-chat"]

/-- Chatbot.tsx : the note appended when a non-first model served. -/
def clientNote (modelName : String) : String :=
  "\n\n_(Note: used smaller local model " ++ squote ++ modelName ++ squote
    ++ " due to resource limits.)_"

/-- Chatbot.tsx : `if (modelName !== preferredModels[0])` append the
note, else return the response unchanged. -/
def clientAnnotated (modelName resp : String) : String :=
  if modelName ≠ preferredModels.getD 0 "" then resp ++ clientNote modelName
  else resp

/-- Result of the client loop: an answer for the UI, or exhaustion with
the last recorded error. -/
inductive ClientResult where
  | answered (text : String)
  | exhausted (lastErr : Option String)
deriving DecidableEq

/-- The candidate loop of Chatbot.generateBotResponse, with the trace of
models for which the chat server was actually called. -/
def clientLoop (server : String → ServerReply) :
    List String → Option String → List String × ClientResult
  | [], lastErr => ([], ClientResult.exhausted lastErr)
  | modelName :: rest, lastErr =>
    match clientAttempt server modelName with
    | .fail e =>
        let next := clientLoop server rest (some e)
        (modelName :: next.fst, next.snd)
    | .succeed resp =>
        ([modelName], ClientResult.answered (clientAnnotated modelName resp))

/-- Spec-side de-duplication, worded as in the spec: walk the list and
keep each model the first time it is seen, dropping later occurrences.
Declared only to be compared with `dedupFirst` (refinement). -/
def specDedupAux (seen : List String) : List String → List String
  | [] => []
  | a :: l =>
      if a ∈ seen then specDedupAux seen l
      else a :: specDedupAux (a :: seen) l

/-- Spec-side de-duplication of a whole list. -/
def specDedup (l : List String) : List String := specDedupAux [] l

/-- Whether a candidate attempt failed. -/
def isFail : Attempt → Bool
  | .fail _ => true
  | .succeed _ => false

/-- The error message recorded by a failing attempt, if it fails. -/
def attemptErr (backend : String → BackendReply) (m : String) :
    Option String :=
  match attemptModel backend m with
  | .fail e => some e
  | .succeed _ => none

/- ### Lemmas about the de-duplication filter -/

/-- The filter predicate of dedupFirst, generalized by a seen set. -/
def dedupPred (arr : List String) (s : List String) : Nat × String → Bool :=
  fun p => decide (p.2 ∉ s) && (arr.indexOf p.2 == p.1)

theorem enumFrom_one (l : List String) :
    List.enumFrom 1 l = l.enum.map (Prod.map (· + 1) id) := by
  have h := List.map_fst_add_enumFrom_eq_enumFrom l 1 0
  simpa [List.enum] using h.symm

theorem dedupPred_head (b : String) (l s : List String) :
    dedupPred (b :: l) s (0, b) = decide (b ∉ s) := by
  simp [dedupPred]

theorem dedupPred_step_out (b : String) (l s : List String) (hb : b ∉ s)
    (p : Nat × String) :
    dedupPred (b :: l) s (Prod.map (· + 1) id p) = dedupPred l (b :: s) p := by
  obtain ⟨i, m⟩ := p
  apply Bool.eq_iff_iff.mpr
  by_cases hm : m = b
  · subst hm
    simp [dedupPred, hb]
  · simp only [dedupPred, Prod.map, id, Bool.and_eq_true, decide_eq_true_eq,
      beq_iff_eq, List.mem_cons, not_or]
    rw [List.indexOf_cons_ne _ (fun h => hm h.symm)]
    constructor
    · rintro ⟨h1, h2⟩
      exact ⟨⟨hm, h1⟩, Nat.succ_injective h2⟩
    · rintro ⟨⟨_, h1⟩, h2⟩
      exact ⟨h1, by omega⟩

theorem dedupPred_step_in (b : String) (l s : List String) (hb : b ∈ s)
    (p : Nat × String) :
    dedupPred (b :: l) s (Prod.map (· + 1) id p) = dedupPred l s p := by
  obtain ⟨i, m⟩ := p
  apply Bool.eq_iff_iff.mpr
  by_cases hm : m = b
  · subst hm
    simp [dedupPred, hb]
  · simp only [dedupPred, Prod.map, id, Bool.and_eq_true, decide_eq_true_eq,
      beq_iff_eq]
    rw [List.indexOf_cons_ne _ (fun h => hm h.symm)]
    constructor
    · rintro ⟨h1, h2⟩
      exact ⟨h1, Nat.succ_injective h2⟩
    · rintro ⟨h1, h2⟩
      exact ⟨h1, by omega⟩

theorem dedupFirst_aux (l : List String) :
    ∀ s : List String,
      (l.enum.filter (dedupPred l s)).map Prod.snd = specDedupAux s l := by
  induction l with
  | nil => intro s; simp [specDedupAux]
  | cons b l ih =>
    intro s
    rw [List.enum_cons, enumFrom_one, List.filter_cons, List.filter_map]
    simp only [Function.comp_def]
    by_cases hb : b ∈ s
    · rw [if_neg (by simp [dedupPred_head, hb])]
      rw [List.filter_congr (fun p _ => dedupPred_step_in b l s hb p)]
      rw [List.map_map]
      have hsnd : Prod.snd ∘ Prod.map (· + 1) (@id String) = Prod.snd := rfl
      rw [hsnd, ih s]
      simp [specDedupAux, hb]
    · rw [if_pos (by simp [dedupPred_head, hb])]
      rw [List.map_cons, List.map_map]
      rw [List.filter_congr (fun p _ => dedupPred_step_out b l s hb p)]
      have hsnd : Prod.snd ∘ Prod.map (· + 1) (@id String) = Prod.snd := rfl
      rw [hsnd, ih (b :: s)]
      simp [specDedupAux, hb]

theorem dedupFirst_eq_specDedup (l : List String) :
    dedupFirst l = specDedup l := by
  have h : l.enum.filter (fun p => l.indexOf p.2 == p.1) =
      l.enum.filter (dedupPred l []) :=
    List.filter_congr (fun p _ => by simp [dedupPred])
  unfold dedupFirst
  rw [h, dedupFirst_aux l []]
  rfl

theorem specDedupAux_not_mem_seen :
    ∀ (l s : List String) (m : String), m ∈ specDedupAux s l → m ∉ s := by
  intro l
  induction l with
  | nil => intro s m h; simp [specDedupAux] at h
  | cons a l ih =>
    intro s m h
    by_cases ha : a ∈ s
    · rw [specDedupAux, if_pos ha] at h
      exact ih s m h
    · rw [specDedupAux, if_neg ha] at h
      rcases List.mem_cons.mp h with h1 | h1
      · subst h1; exact ha
      · intro hs
        exact ih (a :: s) m h1 (List.mem_cons_of_mem a hs)

theorem specDedupAux_nodup :
    ∀ (l s : List String), (specDedupAux s l).Nodup := by
  intro l
  induction l with
  | nil => intro s; simp [specDedupAux]
  | cons a l ih =>
    intro s
    by_cases ha : a ∈ s
    · rw [specDedupAux, if_pos ha]; exact ih s
    · rw [specDedupAux, if_neg ha]
      refine List.nodup_cons.mpr ⟨?_, ih (a :: s)⟩
      intro hmem
      exact specDedupAux_not_mem_seen l (a :: s) a hmem (List.mem_cons_self a s)

theorem specDedupAux_fixed :
    ∀ (l s : List String), l.Nodup → (∀ m ∈ l, m ∉ s) →
      specDedupAux s l = l := by
  intro l
  induction l with
  | nil => intro s _ _; rfl
  | cons a l ih =>
    intro s hnd hout
    have ha : a ∉ s := hout a (List.mem_cons_self a l)
    rw [specDedupAux, if_neg ha]
    have hal : a ∉ l := (List.nodup_cons.mp hnd).1
    congr 1
    refine ih (a :: s) (List.nodup_cons.mp hnd).2 ?_
    intro m hm
    rw [List.mem_cons]
    rintro (h1 | h1)
    · subst h1; exact hal hm
    · exact hout m (List.mem_cons_of_mem a hm) h1

theorem dedupFirst_nodup (l : List String) : (dedupFirst l).Nodup := by
  rw [dedupFirst_eq_specDedup]
  exact specDedupAux_nodup l []

theorem dedupFirst_idem (l : List String) :
    dedupFirst (dedupFirst l) = dedupFirst l := by
  rw [dedupFirst_eq_specDedup l, dedupFirst_eq_specDedup (specDedup l)]
  exact specDedupAux_fixed (specDedup l) [] (specDedupAux_nodup l [])
    (fun m _ h => (List.not_mem_nil m) h)

/- ### Lemmas about the candidate loops -/

theorem runModels_fst_sublist (model : String)
    (backend : String → BackendReply) :
    ∀ (l : List String) (le : Option String),
      List.Sublist (runModels model backend l le).fst l := by
  intro l
  induction l with
  | nil => intro le; simp [runModels]
  | cons m rest ih =>
    intro le
    cases h : attemptModel backend m with
    | fail e =>
      simp only [runModels, h]
      exact (ih (some e)).cons₂ m
    | succeed t =>
      simp only [runModels, h]
      exact (List.nil_sublist rest).cons₂ m

theorem clientLoop_fst_sublist (server : String → ServerReply) :
    ∀ (l : List String) (le : Option String),
      List.Sublist (clientLoop server l le).fst l := by
  intro l
  induction l with
  | nil => intro le; simp [clientLoop]
  | cons m rest ih =>
    intro le
    cases h : clientAttempt server m with
    | fail e =>
      simp only [clientLoop, h]
      exact (ih (some e)).cons₂ m
    | succeed t =>
      simp only [clientLoop, h]
      exact (List.nil_sublist rest).cons₂ m

theorem runModels_all_fail (model : String)
    (backend : String → BackendReply) :
    ∀ (lpre : List String) (z : String) (le : Option String),
      (∀ m ∈ lpre ++ [z], isFail (attemptModel backend m) = true) →
      runModels model backend (lpre ++ [z]) le =
        (lpre ++ [z], LoopResult.exhausted (attemptErr backend z)) := by
  intro lpre
  induction lpre with
  | nil =>
    intro z le hall
    have hz := hall z (by simp)
    cases h : attemptModel backend z with
    | fail e =>
      simp [runModels, h, attemptErr]
    | succeed t =>
      rw [h] at hz
      simp [isFail] at hz
  | cons a lpre ih =>
    intro z le hall
    have ha := hall a (by simp)
    cases h : attemptModel backend a with
    | fail e =>
      rw [List.cons_append]
      simp only [runModels, h]
      rw [ih z (some e) (fun m hm => hall m (List.mem_cons_of_mem a hm))]
    | succeed t =>
      rw [h] at ha
      simp [isFail] at ha

theorem runModels_exhausted_all_fail (model : String)
    (backend : String → BackendReply) :
    ∀ (l : List String) (le err : Option String),
      (runModels model backend l le).snd = LoopResult.exhausted err →
      ∀ m ∈ l, isFail (attemptModel backend m) = true := by
  intro l
  induction l with
  | nil => intro le err _ m hm; simp at hm
  | cons a l ih =>
    intro le err hrun m hm
    cases h : attemptModel backend a with
    | fail e =>
      rcases List.mem_cons.mp hm with h1 | h1
      · subst h1; simp [isFail, h]
      · refine ih (some e) err ?_ m h1
        simp only [runModels, h] at hrun
        exact hrun
    | succeed t =>
      simp only [runModels, h] at hrun
      exact LoopResult.noConfusion hrun

theorem runModels_served_shape (model : String)
    (backend : String → BackendReply) :
    ∀ (l : List String) (le : Option String) (s : Served),
      (runModels model backend l le).snd = LoopResult.served s →
      attemptModel backend s.servingModel = Attempt.succeed s.text ∧
      s.finalResponse = finalResponseFor model s.servingModel s.text := by
  intro l
  induction l with
  | nil => intro le s h; simp [runModels] at h
  | cons a l ih =>
    intro le s h
    cases ha : attemptModel backend a with
    | fail e =>
      simp only [runModels, ha] at h
      exact ih (some e) s h
    | succeed t =>
      simp only [runModels, ha] at h
      injection h with h2
      subst h2
      exact ⟨ha, rfl⟩

theorem handleChat_fst_nodup (backend : String → BackendReply)
    (req : ChatRequest) : ((handleChat backend req).fst).Nodup := by
  unfold handleChat
  by_cases hp : promptMissing req.prompt
  · rw [if_pos hp]; exact List.nodup_nil
  · rw [if_neg hp]
    exact (runModels_fst_sublist _ _ _ _).nodup (dedupFirst_nodup _)

theorem clientLoop_fst_nodup (server : String → ServerReply) :
    ((clientLoop server preferredModels none).fst).Nodup :=
  (clientLoop_fst_sublist server preferredModels none).nodup (by decide)

/- ### Claim theorems -/

/-- C1: for a candidate list [A, B, C] where the attempt against A fails
and the attempt against B succeeds with text "hello", the loop stops at
B: the trace is [A, B] (so C is never attempted) and the result carries
text "hello", serving model B, and a true usedFallback flag. -/
theorem c1_first_success_wins (A B C : String)
    (backend : String → BackendReply) (eA : String)
    (hAB : A ≠ B) (hAC : A ≠ C) (hBC : B ≠ C)
    (hA : attemptModel backend A = Attempt.fail eA)
    (hB : attemptModel backend B = Attempt.succeed "hello") :
    runModels A backend [A, B, C] none =
      ([A, B],
       LoopResult.served ⟨B, "hello", finalResponseFor A B "hello"⟩) ∧
    C ∉ ([A, B] : List String) ∧
    usedFallback A ⟨B, "hello", finalResponseFor A B "hello"⟩ = true := by
  refine ⟨by simp [runModels, hA, hB], ?_, ?_⟩
  · simp only [List.mem_cons, List.not_mem_nil, or_false, not_or]
    exact ⟨Ne.symm hAC, Ne.symm hBC⟩
  · simp only [usedFallback, bne_iff_ne, ne_eq]
    exact Ne.symm hAB

/-- C2 counterexample: with primary model tinyllama, when tinyllama and
orca-mini fail and the non-primary model mistral succeeds with "hi", the
final response is exactly "hi": no note naming the fallback model is
appended, contradicting the unqualified claim. -/
theorem c2_no_note_on_mistral_counterexample :
    (runModels "tinyllama"
        (fun m => if m = "mistral" then BackendReply.json (some "hi")
                  else BackendReply.httpError 500 "down")
        (modelsToTry "tinyllama") none).snd =
      LoopResult.served ⟨"mistral", "hi", "hi"⟩ ∧
    ("mistral" : String) ≠ "tinyllama" ∧
    ¬ ("hi" : String) = "hi" ++ fallbackNote "tinyllama" "mistral" := by
  decide

/-- C2 (amended): if the primary model serves, the final response is the
bare text; if a non-primary model other than mistral serves, the final
response is the text followed by a note naming that model; a non-primary
success by mistral is also returned without a note. -/
theorem c2_fallback_note_policy (model : String)
    (backend : String → BackendReply) (l : List String) (le : Option String)
    (s : Served)
    (h : (runModels model backend l le).snd = LoopResult.served s) :
    (s.servingModel = model → s.finalResponse = s.text) ∧
    (s.servingModel = "mistral" → s.finalResponse = s.text) ∧
    (s.servingModel ≠ model → s.servingModel ≠ "mistral" →
      s.finalResponse = s.text ++ fallbackNote model s.servingModel) := by
  obtain ⟨-, hfin⟩ := runModels_served_shape model backend l le s h
  refine ⟨?_, ?_, ?_⟩
  · intro hm
    rw [hfin, finalResponseFor, if_neg (by simp [hm])]
  · intro hm
    rw [hfin, finalResponseFor, if_neg (by simp [hm])]
  · intro h1 h2
    rw [hfin, finalResponseFor, if_pos ⟨h1, h2⟩]

/-- C3: a missing or empty prompt is rejected with the 400 reply
`Prompt is required`, and the backend-call trace is empty. -/
theorem c3_validation_short_circuit (backend : String → BackendReply)
    (req : ChatRequest) (h : req.prompt = none ∨ req.prompt = some "") :
    handleChat backend req =
      ([], ChatResponse.badRequest "Prompt is required") ∧
    statusOf (ChatResponse.badRequest "Prompt is required") = 400 := by
  have hm : promptMissing req.prompt = true := by
    rcases h with h | h <;> rw [h] <;> rfl
  constructor
  · unfold handleChat
    rw [if_pos hm]
  · rfl

/-- C4: the duplicate-removing filter of the proxy equals, on every
list, the spec-side first-occurrence de-duplication; in particular the
effective candidate list for any primary model is the de-duplicated
input, and the spec example [A, B, A, C] yields [A, B, C]. -/
theorem c4_dedup_preserves_order :
    (∀ l : List String, dedupFirst l = specDedup l) ∧
    (∀ model : String,
        modelsToTry model = specDedup [model, "orca-mini", "mistral"]) ∧
    dedupFirst ["A", "B", "A", "C"] = ["A", "B", "C"] :=
  ⟨dedupFirst_eq_specDedup,
   fun model => by rw [modelsToTry, dedupFirst_eq_specDedup],
   by decide⟩

/-- C5: a backend success whose extracted text is empty after trimming
is treated as a failure recording the empty-response message, and the
loop continues with the next candidate. -/
theorem c5_empty_response_fallback (model : String)
    (backend : String → BackendReply) (modelName : String)
    (rest : List String) (le : Option String) (r : Option String)
    (h1 : backend modelName = BackendReply.json r)
    (h2 : extractResponseText r = "") :
    runModels model backend (modelName :: rest) le =
      (modelName ::
         (runModels model backend rest (some emptyResponseMsg)).fst,
       (runModels model backend rest (some emptyResponseMsg)).snd) := by
  have ha : attemptModel backend modelName = Attempt.fail emptyResponseMsg := by
    simp [attemptModel, h1, h2]
  simp [runModels, ha]

/-- C6: when every candidate of a request fails, the handler replies
with the single 500 aggregate error whose details are the error of the
last candidate; in particular for candidates [A, B] both failing, the
loop reports the exhaustion error of B. -/
theorem c6_exhaustion_last_error (backend : String → BackendReply)
    (req : ChatRequest) (lpre : List String) (z : String) (e : String)
    (hp : promptMissing req.prompt = false)
    (hlist : modelsToTry (req.model.getD "tinyllama") = lpre ++ [z])
    (hall : ∀ m ∈ lpre ++ [z], isFail (attemptModel backend m) = true)
    (hz : attemptErr backend z = some e) :
    handleChat backend req =
      (lpre ++ [z],
       ChatResponse.serverError "Failed to communicate with Ollama" e) ∧
    statusOf (ChatResponse.serverError "Failed to communicate with Ollama" e)
      = 500 := by
  refine ⟨?_, rfl⟩
  unfold handleChat
  rw [if_neg (by simp [hp])]
  rw [hlist,
    runModels_all_fail (req.model.getD "tinyllama") backend lpre z none hall]
  simp [chatOutcome, hz]

/-- C7: a thrown network exception is absorbed inside the attempt: it is
recorded exactly like a backend error (the raw message becomes the last
error) and the loop advances to the remaining candidates; moreover an
exhausted loop result implies every candidate in the list failed, so
only exhaustion is ever reported as a failure. -/
theorem c7_exception_absorbed (model : String)
    (backend : String → BackendReply) (modelName : String)
    (rest : List String) (le : Option String) (msg : String)
    (hexn : backend modelName = BackendReply.exn msg) :
    attemptModel backend modelName = Attempt.fail msg ∧
    runModels model backend (modelName :: rest) le =
      (modelName :: (runModels model backend rest (some msg)).fst,
       (runModels model backend rest (some msg)).snd) ∧
    (∀ (l : List String) (le2 err : Option String),
        (runModels model backend l le2).snd = LoopResult.exhausted err →
        ∀ m ∈ l, isFail (attemptModel backend m) = true) := by
  have ha : attemptModel backend modelName = Attempt.fail msg := by
    simp [attemptModel, hexn]
  exact ⟨ha, by simp [runModels, ha],
    fun l le2 err h => runModels_exhausted_all_fail model backend l le2 err h⟩

/-- C8 counterexample: the health handler body has status
"Server is running", not "ok" as the claim states. -/
theorem c8_health_not_ok_counterexample :
    handleHealth.snd.status = "Server is running" ∧
    handleHealth.snd.status ≠ "ok" := by
  decide

/-- C8 (amended): the health handler is the pure constant reply
`status: Server is running` and makes no backend call (empty trace). -/
theorem c8_health_constant :
    handleHealth = ([], ⟨"Server is running"⟩) := rfl

/-- C9: the duplicate-removing filter of the proxy is idempotent. -/
theorem c9_dedup_idempotent :
    ∀ l : List String, dedupFirst (dedupFirst l) = dedupFirst l :=
  dedupFirst_idem

/-- C10: within one request no candidate is attempted twice: the trace
of backend calls of the server handler has no duplicates, and neither
does the trace of the client-side loop over preferredModels. -/
theorem c10_no_repeat_attempts :
    (∀ (backend : String → BackendReply) (req : ChatRequest),
        ((handleChat backend req).fst).Nodup) ∧
    (∀ server : String → ServerReply,
        ((clientLoop server preferredModels none).fst).Nodup) :=
  ⟨handleChat_fst_nodup, clientLoop_fst_nodup⟩

/- ### Concrete witnesses -/

/-- Concrete backend for the C1 witness: A fails with HTTP 500, B
replies "hello", anything else throws. -/
def wb1 : String → BackendReply := fun m =>
  if m = "A" then BackendReply.httpError 500 "err"
  else if m = "B" then BackendReply.json (some "hello")
  else BackendReply.exn "x"

/-- C1 witness at A, B, C with backend wb1. -/
theorem c1_first_success_wins_witness :
    (("A" : String) ≠ "B" ∧ ("A" : String) ≠ "C" ∧ ("B" : String) ≠ "C" ∧
     attemptModel wb1 "A" = Attempt.fail (ollamaErrorMsg 500 "err") ∧
     attemptModel wb1 "B" = Attempt.succeed "hello") ∧
    (runModels "A" wb1 ["A", "B", "C"] none =
      (["A", "B"],
       LoopResult.served ⟨"B", "hello", finalResponseFor "A" "B" "hello"⟩) ∧
    "C" ∉ (["A", "B"] : List String) ∧
    usedFallback "A" ⟨"B", "hello", finalResponseFor "A" "B" "hello"⟩
      = true) :=
  ⟨⟨by decide, by decide, by decide, by decide, by decide⟩,
   c1_first_success_wins "A" "B" "C" wb1 (ollamaErrorMsg 500 "err")
     (by decide) (by decide) (by decide) (by decide) (by decide)⟩

/-- Concrete backend for the C2 witness: only orca-mini answers, with
text that trims to "fine". -/
def wb2 : String → BackendReply := fun m =>
  if m = "orca-mini" then BackendReply.json (some " fine ")
  else BackendReply.exn "boom"

/-- C2 witness: a non-primary, non-mistral success carries the note. -/
theorem c2_fallback_note_policy_witness :
    (runModels "tinyllama" wb2 (modelsToTry "tinyllama") none).snd =
      LoopResult.served ⟨"orca-mini", "fine",
        "fine" ++ fallbackNote "tinyllama" "orca-mini"⟩ ∧
    ((("orca-mini" : String) = "tinyllama" →
        "fine" ++ fallbackNote "tinyllama" "orca-mini" = "fine") ∧
     (("orca-mini" : String) = "mistral" →
        "fine" ++ fallbackNote "tinyllama" "orca-mini" = "fine") ∧
     (("orca-mini" : String) ≠ "tinyllama" →
      ("orca-mini" : String) ≠ "mistral" →
        "fine" ++ fallbackNote "tinyllama" "orca-mini" =
          "fine" ++ fallbackNote "tinyllama" "orca-mini")) :=
  ⟨by decide,
   c2_fallback_note_policy "tinyllama" wb2 (modelsToTry "tinyllama") none
     ⟨"orca-mini", "fine", "fine" ++ fallbackNote "tinyllama" "orca-mini"⟩
     (by decide)⟩

/-- C3 witness: an empty prompt with a backend that would throw. -/
theorem c3_validation_short_circuit_witness :
    ((some "" : Option String) = none ∨ (some "" : Option String) = some "")
      ∧
    (handleChat (fun _ => BackendReply.exn "x") ⟨some "", some "m"⟩ =
        ([], ChatResponse.badRequest "Prompt is required") ∧
     statusOf (ChatResponse.badRequest "Prompt is required") = 400) :=
  ⟨Or.inr rfl,
   c3_validation_short_circuit (fun _ => BackendReply.exn "x")
     ⟨some "", some "m"⟩ (Or.inr rfl)⟩

/-- Concrete backend for the C5 witness: every model replies with
whitespace only. -/
def wb5 : String → BackendReply := fun _ => BackendReply.json (some "   ")

/-- C5 witness: a whitespace-only reply for m1 makes the loop move on
to m2. -/
theorem c5_empty_response_fallback_witness :
    (wb5 "m1" = BackendReply.json (some "   ") ∧
     extractResponseText (some "   ") = "") ∧
    runModels "m1" wb5 ("m1" :: ["m2"]) none =
      ("m1" :: (runModels "m1" wb5 ["m2"] (some emptyResponseMsg)).fst,
       (runModels "m1" wb5 ["m2"] (some emptyResponseMsg)).snd) :=
  ⟨⟨rfl, by decide⟩,
   c5_empty_response_fallback "m1" wb5 "m1" ["m2"] none (some "   ")
     rfl (by decide)⟩

/-- Concrete backend for the C6 witness: every call throws. -/
def wb6 : String → BackendReply := fun _ => BackendReply.exn "boom"

/-- C6 witness: primary orca-mini gives the two-candidate list
[orca-mini, mistral]; both fail, and the aggregate error carries the
last failure (the one of mistral). -/
theorem c6_exhaustion_last_error_witness :
    (promptMissing (some "hi") = false ∧
     modelsToTry ((some "orca-mini" : Option String).getD "tinyllama") =
       ["orca-mini"] ++ ["mistral"] ∧
     (∀ m ∈ ["orca-mini"] ++ ["mistral"],
        isFail (attemptModel wb6 m) = true) ∧
     attemptErr wb6 "mistral" = some "boom") ∧
    (handleChat wb6 ⟨some "hi", some "orca-mini"⟩ =
      (["orca-mini"] ++ ["mistral"],
       ChatResponse.serverError "Failed to communicate with Ollama" "boom") ∧
     statusOf
       (ChatResponse.serverError "Failed to communicate with Ollama" "boom")
       = 500) :=
  ⟨⟨by decide, by decide, by decide, by decide⟩,
   c6_exhaustion_last_error wb6 ⟨some "hi", some "orca-mini"⟩
     ["orca-mini"] "mistral" "boom" (by decide) (by decide) (by decide)
     (by decide)⟩

/-- Concrete backend for the C7 witness: model a throws, model b
answers. -/
def wb7 : String → BackendReply := fun m =>
  if m = "a" then BackendReply.exn "netfail" else BackendReply.json (some "ok")

/-- C7 witness: the exception at model a is recorded and the loop
continues with model b. -/
theorem c7_exception_absorbed_witness :
    wb7 "a" = BackendReply.exn "netfail" ∧
    (attemptModel wb7 "a" = Attempt.fail "netfail" ∧
     runModels "a" wb7 ("a" :: ["b"]) none =
       ("a" :: (runModels "a" wb7 ["b"] (some "netfail")).fst,
        (runModels "a" wb7 ["b"] (some "netfail")).snd) ∧
     (∀ (l : List String) (le2 err : Option String),
        (runModels "a" wb7 l le2).snd = LoopResult.exhausted err →
        ∀ m ∈ l, isFail (attemptModel wb7 m) = true)) :=
  ⟨by decide,
   c7_exception_absorbed "a" wb7 "a" ["b"] none "netfail" (by decide)⟩
